import Mathlib

/-
Verification of the DateTime value type of indicator-datetime
(source: src/date-time.cpp).

The DateTime class wraps an external calendar/timezone engine (GLib).
Per the specification, that engine is an external collaborator outside
the repository; here it is modelled from the spec as a proleptic
Gregorian calendar over fixed-offset timezones, with instants carried
as microseconds since the Unix epoch.  The DateTime operations
themselves are translated directly from src/date-time.cpp.
-/

namespace IndicatorDatetime

/-- Modelled from the spec: the collaborator converts an absolute day
number (days since 1970-01-01) into proleptic Gregorian calendar
fields (year, month, day).  The decomposition splits a 400-year era
into centuries, 4-year blocks and years, clamping at the long
century / long block at the end of each cycle. -/
def civilFromDays (z : Int) : Int × Int × Int :=
  let w := z + 719468
  let era := w / 146097
  let doe := w % 146097
  let yk := min (doe / 36524) 3
  let r1 := doe - 36524 * yk
  let q := r1 / 1461
  let r2 := r1 - 1461 * q
  let r := min (r2 / 365) 3
  let doy := r2 - 365 * r
  let yoe := 100 * yk + 4 * q + r
  let mp := (5 * doy + 2) / 153
  let d := doy - (153 * mp + 2) / 5 + 1
  let m := if mp < 10 then mp + 3 else mp - 9
  let y := yoe + era * 400
  (if m ≤ 2 then y + 1 else y, m, d)

/-- Modelled from the spec: the collaborator converts proleptic
Gregorian calendar fields into an absolute day number (days since
1970-01-01).  Standard civil-to-days conversion on the March-based
year. -/
def daysFromCivil (y m d : Int) : Int :=
  let yy := if m ≤ 2 then y - 1 else y
  let era := yy / 400
  let yoe := yy % 400
  let mp := if 2 < m then m - 3 else m + 9
  let doy := (153 * mp + 2) / 5 + d - 1
  let doe := 365 * yoe + yoe / 4 - yoe / 100 + doy
  era * 146097 + doe - 719468

/-- Modelled from the spec: Gregorian leap-year rule used by the
collaborator when validating calendar fields. -/
def isLeapYear (y : Int) : Bool :=
  y % 4 == 0 && (y % 100 != 0 || y % 400 == 0)

/-- Modelled from the spec: number of days in a Gregorian month. -/
def daysInMonth (y m : Int) : Int :=
  if m = 2 then (if isLeapYear y then 29 else 28)
  else if m = 4 ∨ m = 6 ∨ m = 9 ∨ m = 11 then 30
  else 31

/-- Modelled from the spec: a timezone descriptor.  The spec treats
zones as named descriptors supplied by the collaborator; the model
carries the UTC offset in seconds. -/
structure GTimeZone where
  offset : Int
deriving DecidableEq

/-- Modelled from the spec: the underlying calendar representation of
an absolute instant, paired with the zone it is observed in.  The
absolute instant is microseconds since the Unix epoch. -/
structure GDateTime where
  tz : GTimeZone
  usec : Int
deriving DecidableEq

/-- Modelled from the spec: zone-by-name lookup with a failure signal
for unresolvable names.  A small fixed table of fixed-offset zones
stands in for the timezone database. -/
def zoneOffsetOfName (name : String) : Option Int :=
  if name = "UTC" then some 0
  else if name = "Europe/Berlin" then some 3600
  else if name = "America/New_York" then some (-18000)
  else if name = "Asia/Kolkata" then some 19800
  else none

/-- Modelled from the spec: zone-by-name lookup (g_time_zone_new). -/
def g_time_zone_new (name : String) : Option GTimeZone :=
  (zoneOffsetOfName name).map GTimeZone.mk

/-- Microseconds since the epoch shifted into the local zone of the
instant: the quantity from which all display fields are derived. -/
def localUsec (g : GDateTime) : Int :=
  g.usec + g.tz.offset * 1000000

/-- Local day number (days since 1970-01-01 in the local zone). -/
def localDays (g : GDateTime) : Int :=
  localUsec g / 86400000000

/-- Modelled from the spec: field extraction of (year, month, day) in
the local zone of the instant (g_date_time_get_ymd). -/
def g_date_time_get_ymd (g : GDateTime) : Int × Int × Int :=
  civilFromDays (localDays g)

/-- Modelled from the spec: the year field (g_date_time_get_year). -/
def g_date_time_get_year (g : GDateTime) : Int :=
  (g_date_time_get_ymd g).1

/-- Modelled from the spec: the day-of-month field
(g_date_time_get_day_of_month). -/
def g_date_time_get_day_of_month (g : GDateTime) : Int :=
  (g_date_time_get_ymd g).2.2

/-- Modelled from the spec: the day-of-year field
(g_date_time_get_day_of_year), 1 on January 1st. -/
def g_date_time_get_day_of_year (g : GDateTime) : Int :=
  daysFromCivil (g_date_time_get_ymd g).1 (g_date_time_get_ymd g).2.1 (g_date_time_get_ymd g).2.2
    - daysFromCivil (g_date_time_get_ymd g).1 1 1 + 1

/-- Modelled from the spec: the hour field (g_date_time_get_hour). -/
def g_date_time_get_hour (g : GDateTime) : Int :=
  localUsec g % 86400000000 / 3600000000

/-- Modelled from the spec: the minute field (g_date_time_get_minute). -/
def g_date_time_get_minute (g : GDateTime) : Int :=
  localUsec g % 3600000000 / 60000000

/-- Modelled from the spec: the fractional seconds field
(g_date_time_get_seconds). -/
def g_date_time_get_seconds (g : GDateTime) : ℚ :=
  ((localUsec g % 60000000 : Int) : ℚ) / 1000000

/-- Modelled from the spec: construction from calendar fields in a
given zone, with an explicit failure signal (none) for invalid field
combinations such as February 30 (g_date_time_new).  The call sites
in src/date-time.cpp pass integral seconds. -/
def g_date_time_new (tz : GTimeZone) (y m d h mi s : Int) : Option GDateTime :=
  if 1 ≤ m ∧ m ≤ 12 ∧ 1 ≤ d ∧ d ≤ daysInMonth y m ∧
      0 ≤ h ∧ h < 24 ∧ 0 ≤ mi ∧ mi < 60 ∧ 0 ≤ s ∧ s < 60 then
    some ⟨tz, (daysFromCivil y m d * 86400 + h * 3600 + mi * 60 + s) * 1000000
      - tz.offset * 1000000⟩
  else none

/-- Modelled from the spec: construction from whole seconds since the
Unix epoch in a given zone (g_date_time_new_from_unix_local). -/
def g_date_time_new_from_unix (tz : GTimeZone) (t : Int) : GDateTime :=
  ⟨tz, t * 1000000⟩

/-- Modelled from the spec: the current instant observed in a given
zone (g_date_time_new_now_local); the ambient current time is a
parameter of the model. -/
def g_date_time_new_now (tz : GTimeZone) (nowUsec : Int) : GDateTime :=
  ⟨tz, nowUsec⟩

/-- Modelled from the spec: conversion of the display zone of an
absolute instant; the absolute instant itself is unchanged
(g_date_time_to_timezone). -/
def g_date_time_to_timezone (g : GDateTime) (tz : GTimeZone) : GDateTime :=
  ⟨tz, g.usec⟩

/-- Modelled from the spec: whole seconds since the Unix epoch,
timezone-independent (g_date_time_to_unix). -/
def g_date_time_to_unix (g : GDateTime) : Int :=
  g.usec / 1000000

/-- Modelled from the spec: three-way comparison of two instants as
absolute instants (g_date_time_compare). -/
def g_date_time_compare (a b : GDateTime) : Int :=
  if a.usec < b.usec then -1 else if a.usec = b.usec then 0 else 1

/-- Modelled from the spec: signed difference in microseconds between
two instants (g_date_time_difference). -/
def g_date_time_difference (endg beging : GDateTime) : Int :=
  endg.usec - beging.usec

/-- Modelled from the spec: calendar-aware offset addition
(g_date_time_add_full): years and months are added on the calendar
with day-of-month clamped at month end, then days, hours, minutes and
fractional seconds are added as exact time, all in the local zone of
the instant. -/
def g_date_time_add_full (g : GDateTime) (years months days hours minutes : Int)
    (seconds : ℚ) : GDateTime :=
  let t := g_date_time_get_ymd g
  let mTotal := 12 * (t.1 + years) + (t.2.1 - 1) + months
  let y2 := mTotal / 12
  let m2 := mTotal % 12 + 1
  let d2 := min t.2.2 (daysInMonth y2 m2)
  let tod := localUsec g % 86400000000
  let lu := (daysFromCivil y2 m2 d2 + days) * 86400000000 + tod
    + (hours * 3600 + minutes * 60) * 1000000 + ⌊seconds * 1000000⌋
  ⟨g.tz, lu - g.tz.offset * 1000000⟩

/-- The DateTime value: two shared handles, each possibly absent
(members m_tz and m_dt declared in the class header). -/
structure DateTime where
  m_tz : Option GTimeZone
  m_dt : Option GDateTime
deriving DecidableEq

/-- DateTime::DateTime() (line 30): the default constructor leaves
both handles absent. -/
def DateTime.ctorDefault : DateTime :=
  { m_tz := none, m_dt := none }

/-- DateTime::reset (lines 176-201): if exactly one of the handles is
present the precondition check g_return_if_fail fires and the method
returns early, leaving the object unchanged; otherwise both members
are replaced. -/
def DateTime.reset (a : DateTime) (gtz : Option GTimeZone) (gdt : Option GDateTime) :
    DateTime :=
  if gdt.isNone = gtz.isNone then { m_tz := gtz, m_dt := gdt } else a

/-- DateTime::DateTime(GTimeZone*, GDateTime*) (lines 34-39): the
precondition check g_return_if_fail fires on mismatched presence and
the constructor body is skipped, leaving the default-initialized
(unset) members; otherwise reset stores both handles. -/
def DateTime.ctor2 (gtz : Option GTimeZone) (gdt : Option GDateTime) : DateTime :=
  if gtz.isNone = gdt.isNone then DateTime.ctorDefault.reset gtz gdt
  else DateTime.ctorDefault

/-- DateTime::DateTime(GTimeZone*, GDateTime*) (lines 34-39) with the
contract check made explicit: the error value models the
g_return_if_fail precondition check firing, the assertion-style
diagnostic for a programmer error in the calling code (it is not a
value the constructor hands back for inspection). -/
def DateTime.ctor2Checked (gtz : Option GTimeZone) (gdt : Option GDateTime) :
    Except Unit DateTime :=
  if gtz.isNone = gdt.isNone then Except.ok (DateTime.ctor2 gtz gdt)
  else Except.error ()

/-- DateTime::operator= (lines 41-46): assignment copies (shares) both
handles. -/
def DateTime.assign (a that : DateTime) : DateTime :=
  { a with m_tz := that.m_tz, m_dt := that.m_dt }

/-- DateTime::DateTime(time_t) (lines 48-55): local zone plus instant
built from whole epoch seconds, stored via reset. -/
def DateTime.fromUnixLocal (localTz : GTimeZone) (t : Int) : DateTime :=
  DateTime.ctorDefault.reset (some localTz) (some (g_date_time_new_from_unix localTz t))

/-- DateTime::NowLocal (lines 57-65): local zone plus the current
instant (a parameter of the model). -/
def DateTime.NowLocal (localTz : GTimeZone) (nowUsec : Int) : DateTime :=
  DateTime.ctor2 (some localTz) (some (g_date_time_new_now localTz nowUsec))

/-- DateTime::Local (lines 67-75): local zone plus an instant built
from calendar fields; field construction may fail, in which case the
constructed value degenerates to unset. -/
def DateTime.Local (localTz : GTimeZone) (year month day hour minute seconds : Int) :
    DateTime :=
  DateTime.ctor2 (some localTz) (g_date_time_new localTz year month day hour minute seconds)

/-- DateTime::get (lines 126-130): returns the stored moment handle;
the g_assert(m_dt) documents the expectation that it is present, and
callers null-check the returned pointer (see operator==), so the
observable contract is the possibly-null handle itself. -/
def DateTime.get (a : DateTime) : Option GDateTime :=
  a.m_dt

/-- Modelled from the spec: DateTime::is_set lives in the class header
(not under src/); per the spec it asks whether the Instant is set. -/
def DateTime.is_set (a : DateTime) : Bool :=
  a.m_dt.isSome

/-- DateTime::to_timezone (lines 77-85): look the zone up by name,
convert the display zone of the instant, and build a new DateTime from
the pair.  An unresolvable zone or an unset receiver degenerates to an
unset result through the constructor checks. -/
def DateTime.to_timezone (a : DateTime) (zone : String) : DateTime :=
  match g_time_zone_new zone, a.get with
  | some gtz, some g => DateTime.ctor2 (some gtz) (some (g_date_time_to_timezone g gtz))
  | some gtz, none => DateTime.ctor2 (some gtz) none
  | none, _ => DateTime.ctor2 none none

/-- DateTime::start_of_day (lines 87-98): requires the receiver to be
set (g_assert(is_set()) and g_assert(m_tz)); none models the
assertion aborting on an unset receiver.  Otherwise rebuilds the
instant at 00:00:00 of the same calendar day in the same zone. -/
def DateTime.start_of_day (a : DateTime) : Option DateTime :=
  match a.m_dt, a.m_tz with
  | some g, some gtz =>
      some (DateTime.ctor2 (some gtz)
        (g_date_time_new gtz (g_date_time_get_ymd g).1 (g_date_time_get_ymd g).2.1
          (g_date_time_get_ymd g).2.2 0 0 0))
  | _, _ => none

/-- DateTime::start_of_minute (lines 100-111): requires the receiver
to be set; none models the assertion aborting on an unset receiver.
Otherwise rebuilds the instant at second 0 of the same calendar minute
in the same zone. -/
def DateTime.start_of_minute (a : DateTime) : Option DateTime :=
  match a.m_dt, a.m_tz with
  | some g, some gtz =>
      some (DateTime.ctor2 (some gtz)
        (g_date_time_new gtz (g_date_time_get_ymd g).1 (g_date_time_get_ymd g).2.1
          (g_date_time_get_ymd g).2.2 (g_date_time_get_hour g) (g_date_time_get_minute g) 0))
  | _, _ => none

/-- DateTime::add_full (lines 113-119): delegate the calendar-aware
addition to the collaborator and wrap the result with the original
zone handle. -/
def DateTime.add_full (a : DateTime) (years months days hours minutes : Int)
    (seconds : ℚ) : DateTime :=
  DateTime.ctor2 a.m_tz
    ((a.get).map (fun g => g_date_time_add_full g years months days hours minutes seconds))

/-- DateTime::add_days (lines 121-124): convenience wrapper around
add_full. -/
def DateTime.add_days (a : DateTime) (days : Int) : DateTime :=
  a.add_full 0 0 days 0 0 0

/-- DateTime::ymd (lines 146-149): field extraction through get();
the out-parameters keep their zero initialization when the receiver
is unset. -/
def DateTime.ymd (a : DateTime) : Int × Int × Int :=
  match a.get with
  | some g => g_date_time_get_ymd g
  | none => (0, 0, 0)

/-- DateTime::day_of_month (lines 151-154). -/
def DateTime.day_of_month (a : DateTime) : Int :=
  match a.get with
  | some g => g_date_time_get_day_of_month g
  | none => 0

/-- DateTime::hour (lines 156-159). -/
def DateTime.hour (a : DateTime) : Int :=
  match a.get with
  | some g => g_date_time_get_hour g
  | none => 0

/-- DateTime::minute (lines 161-164). -/
def DateTime.minute (a : DateTime) : Int :=
  match a.get with
  | some g => g_date_time_get_minute g
  | none => 0

/-- DateTime::seconds (lines 166-169). -/
def DateTime.seconds (a : DateTime) : ℚ :=
  match a.get with
  | some g => g_date_time_get_seconds g
  | none => 0

/-- DateTime::to_unix (lines 171-174). -/
def DateTime.to_unix (a : DateTime) : Int :=
  match a.get with
  | some g => g_date_time_to_unix g
  | none => 0

/-- DateTime::operator== (lines 219-226): fetch both handles, treat
two absent handles as equal, one absent handle as unequal, and
otherwise delegate to the three-way comparison of absolute instants. -/
def DateTime.op_eq (a that : DateTime) : Bool :=
  match a.get, that.get with
  | none, none => true
  | none, some _ => false
  | some _, none => false
  | some dt, some tdt => g_date_time_compare dt tdt == 0

/-- DateTime::operator!= (lines 213-217): true if this instant is not
set, or if it is not equal to that. -/
def DateTime.op_ne (a that : DateTime) : Bool :=
  a.m_dt.isNone || !(DateTime.op_eq a that)

/-- DateTime::is_same_day (lines 233-243): false when either operand
is uninitialized; otherwise compare year and day-of-year, each in its
own zone. -/
def DateTime.is_same_day (a b : DateTime) : Bool :=
  match a.m_dt, b.m_dt with
  | some adt, some bdt =>
      (g_date_time_get_year adt == g_date_time_get_year bdt)
        && (g_date_time_get_day_of_year adt == g_date_time_get_day_of_year bdt)
  | _, _ => false

/-- DateTime::is_same_minute (lines 245-254): false unless the two
fall on the same day; otherwise additionally compare hour and minute
fields. -/
def DateTime.is_same_minute (a b : DateTime) : Bool :=
  if DateTime.is_same_day a b then
    match a.m_dt, b.m_dt with
    | some adt, some bdt =>
        (g_date_time_get_hour adt == g_date_time_get_hour bdt)
          && (g_date_time_get_minute adt == g_date_time_get_minute bdt)
    | _, _ => false
  else false

/-- The all-or-nothing invariant of the spec: the zone handle is
absent exactly when the moment handle is absent. -/
def DateTime.wf (a : DateTime) : Prop :=
  a.m_tz = none ↔ a.m_dt = none

instance (a : DateTime) : Decidable a.wf := by
  unfold DateTime.wf
  infer_instance

/-- Sample zone used by the concrete witnesses. -/
def tzutc : GTimeZone := ⟨0⟩

/-- Sample zone used by the concrete witnesses. -/
def tzberlin : GTimeZone := ⟨3600⟩

/-- Sample set instant (2023-11-14 22:13:20 UTC). -/
def gdtA : GDateTime := ⟨tzutc, 1700000000000000⟩

/-- Sample set instant: the same absolute instant observed in another
zone. -/
def gdtB : GDateTime := ⟨tzberlin, 1700000000000000⟩

/-- Sample set instant one minute later. -/
def gdtC : GDateTime := ⟨tzutc, 1700000060000000⟩

/-- Sample unset DateTime. -/
def dtUnset : DateTime := ⟨none, none⟩

/-- Sample set DateTime. -/
def dtA : DateTime := ⟨some tzutc, some gdtA⟩

/-- Sample set DateTime, same absolute instant as dtA in another zone. -/
def dtB : DateTime := ⟨some tzberlin, some gdtB⟩

/-- Sample set DateTime, one minute after dtA. -/
def dtC : DateTime := ⟨some tzutc, some gdtC⟩

end IndicatorDatetime

namespace IndicatorDatetime

/-- The civil decomposition and recomposition of the collaborator
model are mutually consistent: recomposing the fields of any absolute
day number yields that day number back, and the decomposed fields
always form a valid Gregorian date. -/
theorem civil_master (z : Int) :
    daysFromCivil (civilFromDays z).1 (civilFromDays z).2.1 (civilFromDays z).2.2 = z ∧
    1 ≤ (civilFromDays z).2.1 ∧ (civilFromDays z).2.1 ≤ 12 ∧
    1 ≤ (civilFromDays z).2.2 ∧
    (civilFromDays z).2.2 ≤ daysInMonth (civilFromDays z).1 (civilFromDays z).2.1 := by
  have h0 : 0 ≤ (z + 719468) % 146097 := Int.emod_nonneg _ (by norm_num)
  have h1 : (z + 719468) % 146097 < 146097 := Int.emod_lt_of_pos _ (by norm_num)
  have hsplit : 146097 * ((z + 719468) / 146097) + (z + 719468) % 146097 = z + 719468 :=
    Int.ediv_add_emod _ _
  unfold civilFromDays daysFromCivil
  dsimp only
  generalize hdoe : (z + 719468) % 146097 = doe at h0 h1 hsplit ⊢
  generalize hera : (z + 719468) / 146097 = era at hsplit ⊢
  clear hdoe hera
  obtain ⟨yk, hykdef, hyk1, hyk2, hyk3, hyk4, hyk5⟩ :
      ∃ yk, min (doe / 36524) 3 = yk ∧ 0 ≤ yk ∧ yk ≤ 3 ∧ 36524 * yk ≤ doe ∧
        doe - 36524 * yk ≤ 36524 ∧ (yk < 3 → doe - 36524 * yk ≤ 36523) := by
    refine ⟨_, rfl, ?_, ?_, ?_, ?_, ?_⟩ <;> omega
  rw [hykdef]
  clear hykdef
  obtain ⟨q, hqdef, hq1, hq2, hq3, hq4, hq5⟩ :
      ∃ q, (doe - 36524 * yk) / 1461 = q ∧ 0 ≤ q ∧ q ≤ 24 ∧
        1461 * q ≤ doe - 36524 * yk ∧ doe - 36524 * yk - 1461 * q ≤ 1460 ∧
        (yk < 3 → q = 24 → doe - 36524 * yk - 1461 * q ≤ 1459) := by
    refine ⟨_, rfl, ?_, ?_, ?_, ?_, ?_⟩ <;> omega
  rw [hqdef]
  clear hqdef
  obtain ⟨r, hrdef, hr1, hr2, hr3, hr4, hr5⟩ :
      ∃ r, min ((doe - 36524 * yk - 1461 * q) / 365) 3 = r ∧ 0 ≤ r ∧ r ≤ 3 ∧
        365 * r ≤ doe - 36524 * yk - 1461 * q ∧
        doe - 36524 * yk - 1461 * q - 365 * r ≤ 365 ∧
        (doe - 36524 * yk - 1461 * q - 365 * r = 365 →
          r = 3 ∧ doe - 36524 * yk - 1461 * q = 1460) := by
    refine ⟨_, rfl, ?_, ?_, ?_, ?_, ?_⟩ <;> omega
  rw [hrdef]
  clear hrdef
  obtain ⟨mp, hmpdef, hmp1, hmp2, hmp3, hmp4⟩ :
      ∃ mp, (5 * (doe - 36524 * yk - 1461 * q - 365 * r) + 2) / 153 = mp ∧
        0 ≤ mp ∧ mp ≤ 11 ∧
        153 * mp ≤ 5 * (doe - 36524 * yk - 1461 * q - 365 * r) + 2 ∧
        5 * (doe - 36524 * yk - 1461 * q - 365 * r) + 2 - 153 * mp ≤ 152 := by
    refine ⟨_, rfl, ?_, ?_, ?_, ?_⟩ <;> omega
  rw [hmpdef]
  clear hmpdef
  by_cases hmplt : mp < 10
  · rw [if_pos hmplt]
    rw [if_neg (by omega : ¬(mp + 3 ≤ 2)), if_neg (by omega : ¬(mp + 3 ≤ 2)),
      if_pos (by omega : (2:Int) < mp + 3)]
    rw [show mp + 3 - 3 = mp from by ring]
    obtain ⟨dd, hdddef, hdd1, hdd2⟩ :
        ∃ dd, (153 * mp + 2) / 5 = dd ∧ 5 * dd ≤ 153 * mp + 2 ∧ 153 * mp + 2 - 5 * dd ≤ 4 := by
      refine ⟨_, rfl, ?_, ?_⟩ <;> omega
    rw [hdddef]
    clear hdddef
    obtain ⟨hyy1, hyy2⟩ :
        (100 * yk + 4 * q + r + era * 400) / 400 = era ∧
        (100 * yk + 4 * q + r + era * 400) % 400 = 100 * yk + 4 * q + r := by
      constructor <;> omega
    rw [hyy1, hyy2]
    obtain ⟨hd4, hd100⟩ :
        (100 * yk + 4 * q + r) / 4 = 25 * yk + q ∧ (100 * yk + 4 * q + r) / 100 = yk := by
      constructor <;> omega
    rw [hd4, hd100]
    refine ⟨by omega, by omega, by omega, by omega, ?_⟩
    interval_cases mp <;>
      simp only [daysInMonth, Int.reduceAdd, Int.reduceEq, if_false, if_true, or_self,
        or_true, true_or, false_or, or_false, reduceIte] <;>
      omega
  · rw [if_neg hmplt]
    rw [if_pos (by omega : mp - 9 ≤ 2), if_pos (by omega : mp - 9 ≤ 2),
      if_neg (by omega : ¬((2:Int) < mp - 9))]
    rw [show mp - 9 + 9 = mp from by ring]
    obtain ⟨dd, hdddef, hdd1, hdd2⟩ :
        ∃ dd, (153 * mp + 2) / 5 = dd ∧ 5 * dd ≤ 153 * mp + 2 ∧ 153 * mp + 2 - 5 * dd ≤ 4 := by
      refine ⟨_, rfl, ?_, ?_⟩ <;> omega
    rw [hdddef]
    clear hdddef
    rw [show 100 * yk + 4 * q + r + era * 400 + 1 - 1 = 100 * yk + 4 * q + r + era * 400 from by
      ring]
    obtain ⟨hyy1, hyy2⟩ :
        (100 * yk + 4 * q + r + era * 400) / 400 = era ∧
        (100 * yk + 4 * q + r + era * 400) % 400 = 100 * yk + 4 * q + r := by
      constructor <;> omega
    rw [hyy1, hyy2]
    obtain ⟨hd4, hd100⟩ :
        (100 * yk + 4 * q + r) / 4 = 25 * yk + q ∧ (100 * yk + 4 * q + r) / 100 = yk := by
      constructor <;> omega
    rw [hd4, hd100]
    refine ⟨by omega, by omega, by omega, by omega, ?_⟩
    have hmp1011 : mp = 10 ∨ mp = 11 := by omega
    rcases hmp1011 with hc | hc
    · subst hc
      simp only [daysInMonth]
      norm_num
      omega
    · subst hc
      simp only [daysInMonth]
      norm_num
      by_cases hleap : isLeapYear (100 * yk + 4 * q + r + era * 400 + 1) = true
      · rw [if_pos hleap]
        omega
      · rw [if_neg hleap]
        have hno365 : ¬(doe - 36524 * yk - 1461 * q - 365 * r = 365) := by
          intro h365
          apply hleap
          obtain ⟨hre, hr2e⟩ := hr5 h365
          simp only [isLeapYear, Bool.and_eq_true, beq_iff_eq, Bool.or_eq_true, bne_iff_ne,
            ne_eq]
          omega
        omega

/-- The two-argument constructor with both handles present stores them
unchanged. -/
theorem ctor2_some_some (gtz : GTimeZone) (g : GDateTime) :
    DateTime.ctor2 (some gtz) (some g) = { m_tz := some gtz, m_dt := some g } := rfl

/-- Whatever is passed to the two-argument constructor, the resulting
value satisfies the all-or-nothing invariant. -/
theorem wf_ctor2 (gtz : Option GTimeZone) (gdt : Option GDateTime) :
    DateTime.wf (DateTime.ctor2 gtz gdt) := by
  cases gtz <;> cases gdt <;>
    simp [DateTime.ctor2, DateTime.reset, DateTime.ctorDefault, DateTime.wf]

/-- Field extraction evaluated on an instant built from a day number
and in-range time fields recovers those fields. -/
theorem gdt_fields (tz : GTimeZone) (D h mi s : Int)
    (hh0 : 0 ≤ h) (hh1 : h < 24) (hm0 : 0 ≤ mi) (hm1 : mi < 60)
    (hs0 : 0 ≤ s) (hs1 : s < 60) :
    localDays ⟨tz, (D * 86400 + h * 3600 + mi * 60 + s) * 1000000 - tz.offset * 1000000⟩ = D ∧
    g_date_time_get_hour
      ⟨tz, (D * 86400 + h * 3600 + mi * 60 + s) * 1000000 - tz.offset * 1000000⟩ = h ∧
    g_date_time_get_minute
      ⟨tz, (D * 86400 + h * 3600 + mi * 60 + s) * 1000000 - tz.offset * 1000000⟩ = mi ∧
    g_date_time_get_seconds
      ⟨tz, (D * 86400 + h * 3600 + mi * 60 + s) * 1000000 - tz.offset * 1000000⟩ = (s : ℚ) := by
  have hlu : localUsec ⟨tz, (D * 86400 + h * 3600 + mi * 60 + s) * 1000000
      - tz.offset * 1000000⟩ = D * 86400000000 + (h * 3600 + mi * 60 + s) * 1000000 := by
    unfold localUsec
    dsimp only
    ring
  refine ⟨?_, ?_, ?_, ?_⟩
  · unfold localDays
    rw [hlu]
    omega
  · unfold g_date_time_get_hour
    rw [hlu]
    omega
  · unfold g_date_time_get_minute
    rw [hlu]
    omega
  · unfold g_date_time_get_seconds
    rw [hlu]
    have hs : (D * 86400000000 + (h * 3600 + mi * 60 + s) * 1000000) % 60000000
        = s * 1000000 := by omega
    rw [hs]
    push_cast
    field_simp

/-- The hour field always lies in [0, 24). -/
theorem g_hour_bounds (g : GDateTime) :
    0 ≤ g_date_time_get_hour g ∧ g_date_time_get_hour g < 24 := by
  unfold g_date_time_get_hour
  omega

/-- The minute field always lies in [0, 60). -/
theorem g_minute_bounds (g : GDateTime) :
    0 ≤ g_date_time_get_minute g ∧ g_date_time_get_minute g < 60 := by
  unfold g_date_time_get_minute
  omega

/-- Boolean equality on integers is symmetric. -/
theorem int_beq_comm (x y : Int) : (x == y) = (y == x) := by
  rcases eq_or_ne x y with h | h
  · simp [h]
  · simp [h, h.symm]

end IndicatorDatetime

namespace IndicatorDatetime

/-- C1: operator== makes two unset Instants equal, never equates an
unset and a set Instant, and equates two set Instants exactly when the
three-way comparison of the collaborator reports the same absolute
instant; that comparison ignores the timezone each operand was
observed in. -/
theorem C1_op_eq (a b : DateTime) :
    (a.m_dt = none → b.m_dt = none → DateTime.op_eq a b = true) ∧
    (a.m_dt = none → b.m_dt.isSome → DateTime.op_eq a b = false) ∧
    (a.m_dt.isSome → b.m_dt = none → DateTime.op_eq a b = false) ∧
    (∀ ga gb, a.m_dt = some ga → b.m_dt = some gb →
      (DateTime.op_eq a b = true ↔ g_date_time_compare ga gb = 0)) ∧
    (∀ u v tza tzb tzc tzd,
      g_date_time_compare ⟨tza, u⟩ ⟨tzb, v⟩ = g_date_time_compare ⟨tzc, u⟩ ⟨tzd, v⟩) := by
  refine ⟨?_, ?_, ?_, ?_, ?_⟩
  · intro h1 h2
    simp [DateTime.op_eq, DateTime.get, h1, h2]
  · intro h1 h2
    obtain ⟨gb, hgb⟩ := Option.isSome_iff_exists.mp h2
    simp [DateTime.op_eq, DateTime.get, h1, hgb]
  · intro h1 h2
    obtain ⟨ga, hga⟩ := Option.isSome_iff_exists.mp h1
    simp [DateTime.op_eq, DateTime.get, hga, h2]
  · intro ga gb h1 h2
    simp [DateTime.op_eq, DateTime.get, h1, h2]
  · intro u v tza tzb tzc tzd
    rfl

/-- C1 witness: the three regimes of operator== at concrete values;
dtA and dtB are the same absolute instant observed in different
zones. -/
theorem C1_op_eq_witness :
    DateTime.op_eq dtUnset dtUnset = true ∧
    DateTime.op_eq dtUnset dtA = false ∧
    DateTime.op_eq dtA dtUnset = false ∧
    (DateTime.op_eq dtA dtB = true ↔ g_date_time_compare gdtA gdtB = 0) :=
  ⟨(C1_op_eq dtUnset dtUnset).1 rfl rfl,
   (C1_op_eq dtUnset dtA).2.1 rfl rfl,
   (C1_op_eq dtA dtUnset).2.2.1 rfl rfl,
   (C1_op_eq dtA dtB).2.2.2.1 gdtA gdtB rfl rfl⟩

/-- C2: operator!= is true whenever the receiver is unset (also when
the other operand is unset), and otherwise is the boolean negation of
operator==; in particular two unset Instants are == and also !=. -/
theorem C2_op_ne (a b : DateTime) :
    (a.m_dt = none → DateTime.op_ne a b = true) ∧
    (a.m_dt.isSome → DateTime.op_ne a b = !(DateTime.op_eq a b)) ∧
    (a.m_dt = none → b.m_dt = none →
      DateTime.op_eq a b = true ∧ DateTime.op_ne a b = true) := by
  refine ⟨?_, ?_, ?_⟩
  · intro h
    simp [DateTime.op_ne, h]
  · intro h
    obtain ⟨ga, hga⟩ := Option.isSome_iff_exists.mp h
    simp [DateTime.op_ne, hga]
  · intro h1 h2
    constructor
    · simp [DateTime.op_eq, DateTime.get, h1, h2]
    · simp [DateTime.op_ne, h1]

/-- C2 witness: the unset/unset asymmetry and the set case at concrete
values. -/
theorem C2_op_ne_witness :
    DateTime.op_ne dtUnset dtA = true ∧
    DateTime.op_ne dtA dtB = !(DateTime.op_eq dtA dtB) ∧
    (DateTime.op_eq dtUnset dtUnset = true ∧ DateTime.op_ne dtUnset dtUnset = true) :=
  ⟨(C2_op_ne dtUnset dtA).1 rfl,
   (C2_op_ne dtA dtB).2.1 rfl,
   (C2_op_ne dtUnset dtUnset).2.2 rfl rfl⟩

/-- C3: every constructor and every transformation of the class yields
a value in which the zone handle is absent exactly when the moment
handle is absent; no value with exactly one handle present is
observable. -/
theorem C3_invariant :
    DateTime.wf DateTime.ctorDefault ∧
    (∀ ltz nowU, DateTime.wf (DateTime.NowLocal ltz nowU)) ∧
    (∀ ltz y m d h mi s, DateTime.wf (DateTime.Local ltz y m d h mi s)) ∧
    (∀ ltz t, DateTime.wf (DateTime.fromUnixLocal ltz t)) ∧
    (∀ gtz gdt, DateTime.wf (DateTime.ctor2 gtz gdt)) ∧
    (∀ a z, DateTime.wf (DateTime.to_timezone a z)) ∧
    (∀ a, (DateTime.start_of_day a).elim True DateTime.wf) ∧
    (∀ a, (DateTime.start_of_minute a).elim True DateTime.wf) ∧
    (∀ a ys ms ds hs mis ss, DateTime.wf (DateTime.add_full a ys ms ds hs mis ss)) ∧
    (∀ a n, DateTime.wf (DateTime.add_days a n)) ∧
    (∀ a b, DateTime.wf (DateTime.assign a b) ↔ DateTime.wf b) := by
  refine ⟨?_, ?_, ?_, ?_, ?_, ?_, ?_, ?_, ?_, ?_, ?_⟩
  · simp [DateTime.ctorDefault, DateTime.wf]
  · intro ltz nowU
    exact wf_ctor2 _ _
  · intro ltz y m d h mi s
    exact wf_ctor2 _ _
  · intro ltz t
    simp [DateTime.fromUnixLocal, DateTime.ctorDefault, DateTime.reset, DateTime.wf]
  · intro gtz gdt
    exact wf_ctor2 _ _
  · intro a z
    unfold DateTime.to_timezone
    rcases hz : g_time_zone_new z with _ | gtz <;> rcases hg : a.get with _ | g <;>
      exact wf_ctor2 _ _
  · intro a
    rcases hdt : a.m_dt with _ | g <;> rcases htz : a.m_tz with _ | gtz <;>
      simp [DateTime.start_of_day, hdt, htz] <;>
      exact wf_ctor2 _ _
  · intro a
    rcases hdt : a.m_dt with _ | g <;> rcases htz : a.m_tz with _ | gtz <;>
      simp [DateTime.start_of_minute, hdt, htz] <;>
      exact wf_ctor2 _ _
  · intro a ys ms ds hs mis ss
    exact wf_ctor2 _ _
  · intro a n
    exact wf_ctor2 _ _
  · intro a b
    simp [DateTime.assign, DateTime.wf]

end IndicatorDatetime

namespace IndicatorDatetime

/-- C4: on a set receiver, start_of_day returns a set Instant at
00:00:00 with the same calendar (year, month, day) in the same
timezone; on an unset receiver the assertion fires (modelled as
none). -/
theorem C4_start_of_day (a : DateTime) :
    (a.m_dt = none → a.start_of_day = none) ∧
    (∀ g gtz, a.m_dt = some g → a.m_tz = some gtz →
      ∃ b, a.start_of_day = some b ∧ b.m_tz = a.m_tz ∧
        b.hour = 0 ∧ b.minute = 0 ∧ b.seconds = 0 ∧ b.ymd = a.ymd) := by
  constructor
  · intro h
    unfold DateTime.start_of_day
    rw [h]
  · intro g gtz hg htz
    obtain ⟨hrt, hm1, hm2, hd1, hd2⟩ := civil_master (localDays g)
    have hy : civilFromDays (localDays g) = g_date_time_get_ymd g := rfl
    rw [hy] at hrt hm1 hm2 hd1 hd2
    set D := daysFromCivil (g_date_time_get_ymd g).1 (g_date_time_get_ymd g).2.1
      (g_date_time_get_ymd g).2.2 with hD
    have hval : 1 ≤ (g_date_time_get_ymd g).2.1 ∧ (g_date_time_get_ymd g).2.1 ≤ 12 ∧
        1 ≤ (g_date_time_get_ymd g).2.2 ∧
        (g_date_time_get_ymd g).2.2 ≤
          daysInMonth (g_date_time_get_ymd g).1 (g_date_time_get_ymd g).2.1 ∧
        (0:Int) ≤ 0 ∧ (0:Int) < 24 ∧ (0:Int) ≤ 0 ∧ (0:Int) < 60 ∧
        (0:Int) ≤ 0 ∧ (0:Int) < 60 :=
      ⟨hm1, hm2, hd1, hd2, by norm_num⟩
    have hnew : g_date_time_new gtz (g_date_time_get_ymd g).1 (g_date_time_get_ymd g).2.1
        (g_date_time_get_ymd g).2.2 0 0 0
        = some ⟨gtz, (D * 86400 + 0 * 3600 + 0 * 60 + 0) * 1000000
          - gtz.offset * 1000000⟩ := by
      unfold g_date_time_new
      rw [if_pos hval, ← hD]
    obtain ⟨hfD, hfh, hfm, hfs⟩ := gdt_fields gtz D 0 0 0 (le_refl 0) (by norm_num)
      (le_refl 0) (by norm_num) (le_refl 0) (by norm_num)
    have hsod : a.start_of_day = some (DateTime.ctor2 (some gtz)
        (some ⟨gtz, (D * 86400 + 0 * 3600 + 0 * 60 + 0) * 1000000
          - gtz.offset * 1000000⟩)) := by
      unfold DateTime.start_of_day
      rw [hg, htz]
      dsimp only
      rw [hnew]
    refine ⟨_, hsod, ?_, ?_, ?_, ?_, ?_⟩
    · rw [ctor2_some_some, htz]
    · rw [ctor2_some_some]
      simp only [DateTime.hour, DateTime.get]
      exact hfh
    · rw [ctor2_some_some]
      simp only [DateTime.minute, DateTime.get]
      exact hfm
    · rw [ctor2_some_some]
      simp only [DateTime.seconds, DateTime.get]
      rw [hfs]
      norm_num
    · rw [ctor2_some_some]
      simp only [DateTime.ymd, DateTime.get, hg]
      unfold g_date_time_get_ymd
      rw [hfD, hrt]

/-- C4 witness: start_of_day aborts on the unset sample and produces
midnight of the same day on the set sample. -/
theorem C4_start_of_day_witness :
    dtUnset.start_of_day = none ∧
    (∃ b, dtA.start_of_day = some b ∧ b.m_tz = dtA.m_tz ∧
      b.hour = 0 ∧ b.minute = 0 ∧ b.seconds = 0 ∧ b.ymd = dtA.ymd) :=
  ⟨(C4_start_of_day dtUnset).1 rfl,
   (C4_start_of_day dtA).2 gdtA tzutc rfl rfl⟩

/-- C5: on a set receiver, start_of_minute returns a set Instant with
seconds 0 and the same calendar day, hour and minute in the same
timezone; on an unset receiver the assertion fires (modelled as
none). -/
theorem C5_start_of_minute (a : DateTime) :
    (a.m_dt = none → a.start_of_minute = none) ∧
    (∀ g gtz, a.m_dt = some g → a.m_tz = some gtz →
      ∃ b, a.start_of_minute = some b ∧ b.m_tz = a.m_tz ∧
        b.seconds = 0 ∧ b.ymd = a.ymd ∧ b.hour = a.hour ∧ b.minute = a.minute) := by
  constructor
  · intro h
    unfold DateTime.start_of_minute
    rw [h]
  · intro g gtz hg htz
    obtain ⟨hrt, hm1, hm2, hd1, hd2⟩ := civil_master (localDays g)
    have hy : civilFromDays (localDays g) = g_date_time_get_ymd g := rfl
    rw [hy] at hrt hm1 hm2 hd1 hd2
    obtain ⟨hh0, hh1⟩ := g_hour_bounds g
    obtain ⟨hmi0, hmi1⟩ := g_minute_bounds g
    set D := daysFromCivil (g_date_time_get_ymd g).1 (g_date_time_get_ymd g).2.1
      (g_date_time_get_ymd g).2.2 with hD
    have hval : 1 ≤ (g_date_time_get_ymd g).2.1 ∧ (g_date_time_get_ymd g).2.1 ≤ 12 ∧
        1 ≤ (g_date_time_get_ymd g).2.2 ∧
        (g_date_time_get_ymd g).2.2 ≤
          daysInMonth (g_date_time_get_ymd g).1 (g_date_time_get_ymd g).2.1 ∧
        0 ≤ g_date_time_get_hour g ∧ g_date_time_get_hour g < 24 ∧
        0 ≤ g_date_time_get_minute g ∧ g_date_time_get_minute g < 60 ∧
        (0:Int) ≤ 0 ∧ (0:Int) < 60 :=
      ⟨hm1, hm2, hd1, hd2, hh0, hh1, hmi0, hmi1, by norm_num⟩
    have hnew : g_date_time_new gtz (g_date_time_get_ymd g).1 (g_date_time_get_ymd g).2.1
        (g_date_time_get_ymd g).2.2 (g_date_time_get_hour g) (g_date_time_get_minute g) 0
        = some ⟨gtz, (D * 86400 + g_date_time_get_hour g * 3600
          + g_date_time_get_minute g * 60 + 0) * 1000000 - gtz.offset * 1000000⟩ := by
      unfold g_date_time_new
      rw [if_pos hval, ← hD]
    obtain ⟨hfD, hfh, hfm, hfs⟩ := gdt_fields gtz D (g_date_time_get_hour g)
      (g_date_time_get_minute g) 0 hh0 hh1 hmi0 hmi1 (le_refl 0) (by norm_num)
    have hsom : a.start_of_minute = some (DateTime.ctor2 (some gtz)
        (some ⟨gtz, (D * 86400 + g_date_time_get_hour g * 3600
          + g_date_time_get_minute g * 60 + 0) * 1000000 - gtz.offset * 1000000⟩)) := by
      unfold DateTime.start_of_minute
      rw [hg, htz]
      dsimp only
      rw [hnew]
    refine ⟨_, hsom, ?_, ?_, ?_, ?_, ?_⟩
    · rw [ctor2_some_some, htz]
    · rw [ctor2_some_some]
      simp only [DateTime.seconds, DateTime.get]
      rw [hfs]
      norm_num
    · rw [ctor2_some_some]
      simp only [DateTime.ymd, DateTime.get, hg]
      unfold g_date_time_get_ymd
      rw [hfD, hrt]
    · rw [ctor2_some_some]
      simp only [DateTime.hour, DateTime.get, hg]
      exact hfh
    · rw [ctor2_some_some]
      simp only [DateTime.minute, DateTime.get, hg]
      exact hfm

/-- C5 witness: start_of_minute aborts on the unset sample and zeroes
only the seconds of the set sample. -/
theorem C5_start_of_minute_witness :
    dtUnset.start_of_minute = none ∧
    (∃ b, dtA.start_of_minute = some b ∧ b.m_tz = dtA.m_tz ∧
      b.seconds = 0 ∧ b.ymd = dtA.ymd ∧ b.hour = dtA.hour ∧ b.minute = dtA.minute) :=
  ⟨(C5_start_of_minute dtUnset).1 rfl,
   (C5_start_of_minute dtA).2 gdtA tzutc rfl rfl⟩

/-- C6: converting a set Instant to a resolvable named zone preserves
the absolute instant reported by to_unix; only the zone of the stored
moment changes. -/
theorem C6_to_timezone (a : DateTime) (z : String) (gtz : GTimeZone) (g : GDateTime)
    (hz : g_time_zone_new z = some gtz) (hg : a.m_dt = some g) :
    (a.to_timezone z).to_unix = a.to_unix ∧
    (a.to_timezone z).m_dt = some (g_date_time_to_timezone g gtz) := by
  have htt : a.to_timezone z
      = DateTime.ctor2 (some gtz) (some (g_date_time_to_timezone g gtz)) := by
    unfold DateTime.to_timezone DateTime.get
    rw [hz, hg]
  rw [htt, ctor2_some_some]
  constructor
  · simp only [DateTime.to_unix, DateTime.get, hg]
    rfl
  · rfl

/-- C6 witness: converting the UTC sample instant to the Berlin zone
leaves its epoch seconds unchanged. -/
theorem C6_to_timezone_witness :
    (dtA.to_timezone "Europe/Berlin").to_unix = dtA.to_unix ∧
    (dtA.to_timezone "Europe/Berlin").m_dt = some (g_date_time_to_timezone gdtA tzberlin) :=
  C6_to_timezone dtA "Europe/Berlin" tzberlin gdtA (by decide) rfl

end IndicatorDatetime

namespace IndicatorDatetime

/-- C7: is_same_day is false whenever either operand is unset; for two
set operands it holds exactly when year and day-of-year coincide, each
field taken in its own zone; and it is symmetric. -/
theorem C7_is_same_day (a b : DateTime) :
    (a.m_dt = none → DateTime.is_same_day a b = false) ∧
    (b.m_dt = none → DateTime.is_same_day a b = false) ∧
    (∀ ga gb, a.m_dt = some ga → b.m_dt = some gb →
      (DateTime.is_same_day a b = true ↔
        (g_date_time_get_year ga = g_date_time_get_year gb ∧
         g_date_time_get_day_of_year ga = g_date_time_get_day_of_year gb))) ∧
    DateTime.is_same_day a b = DateTime.is_same_day b a := by
  refine ⟨?_, ?_, ?_, ?_⟩
  · intro h
    rcases hbdt : b.m_dt with _ | gb <;> simp [DateTime.is_same_day, h, hbdt]
  · intro h
    rcases hadt : a.m_dt with _ | ga <;> simp [DateTime.is_same_day, h, hadt]
  · intro ga gb hga hgb
    simp [DateTime.is_same_day, hga, hgb]
  · rcases hadt : a.m_dt with _ | ga <;> rcases hbdt : b.m_dt with _ | gb <;>
      simp only [DateTime.is_same_day, hadt, hbdt]
    rw [int_beq_comm (g_date_time_get_year ga) (g_date_time_get_year gb),
      int_beq_comm (g_date_time_get_day_of_year ga) (g_date_time_get_day_of_year gb)]

/-- C7 witness: unset operands, a concrete same-day pair, and
symmetry at concrete values. -/
theorem C7_is_same_day_witness :
    DateTime.is_same_day dtUnset dtA = false ∧
    DateTime.is_same_day dtA dtUnset = false ∧
    (DateTime.is_same_day dtA dtC = true ↔
      (g_date_time_get_year gdtA = g_date_time_get_year gdtC ∧
       g_date_time_get_day_of_year gdtA = g_date_time_get_day_of_year gdtC)) :=
  ⟨(C7_is_same_day dtUnset dtA).1 rfl,
   (C7_is_same_day dtA dtUnset).2.1 rfl,
   (C7_is_same_day dtA dtC).2.2.1 gdtA gdtC rfl rfl⟩

/-- C8: is_same_minute is false unless is_same_day holds; given
same-day set operands it holds exactly when the hour and minute
fields also coincide; hence is_same_minute implies is_same_day. -/
theorem C8_is_same_minute (a b : DateTime) :
    (DateTime.is_same_day a b = false → DateTime.is_same_minute a b = false) ∧
    (∀ ga gb, a.m_dt = some ga → b.m_dt = some gb →
      DateTime.is_same_day a b = true →
      (DateTime.is_same_minute a b = true ↔
        (g_date_time_get_hour ga = g_date_time_get_hour gb ∧
         g_date_time_get_minute ga = g_date_time_get_minute gb))) ∧
    (DateTime.is_same_minute a b = true → DateTime.is_same_day a b = true) := by
  refine ⟨?_, ?_, ?_⟩
  · intro h
    unfold DateTime.is_same_minute
    rw [h]
    simp
  · intro ga gb hga hgb hsd
    unfold DateTime.is_same_minute
    rw [hsd, hga, hgb]
    simp
  · intro hm
    cases hsd : DateTime.is_same_day a b
    · exfalso
      unfold DateTime.is_same_minute at hm
      rw [hsd] at hm
      simp at hm
    · rfl

/-- C8 witness: a pair failing same-day, a same-day pair whose minute
fields differ, and a same-minute pair. -/
theorem C8_is_same_minute_witness :
    DateTime.is_same_minute dtUnset dtA = false ∧
    (DateTime.is_same_minute dtA dtC = true ↔
      (g_date_time_get_hour gdtA = g_date_time_get_hour gdtC ∧
       g_date_time_get_minute gdtA = g_date_time_get_minute gdtC)) ∧
    DateTime.is_same_day dtA dtA = true :=
  ⟨(C8_is_same_minute dtUnset dtA).1 (by decide),
   (C8_is_same_minute dtA dtC).2.1 gdtA gdtC rfl rfl (by decide),
   (C8_is_same_minute dtA dtA).2.2 (by decide)⟩

/-- C9: handing the two-argument constructor a pair with exactly one
handle present trips the precondition check (the assertion-style
contract diagnostic of the model), and the stored state degenerates to
fully unset rather than to any partially-set value; reset likewise
refuses the pair and leaves its receiver untouched. -/
theorem C9_ctor_contract (gtz : Option GTimeZone) (gdt : Option GDateTime)
    (h : gtz.isNone ≠ gdt.isNone) :
    DateTime.ctor2Checked gtz gdt = Except.error () ∧
    DateTime.ctor2 gtz gdt = DateTime.ctorDefault ∧
    (∀ a, DateTime.reset a gtz gdt = a) := by
  refine ⟨?_, ?_, ?_⟩
  · unfold DateTime.ctor2Checked
    rw [if_neg h]
  · unfold DateTime.ctor2
    rw [if_neg h]
  · intro a
    unfold DateTime.reset
    rw [if_neg (fun hh => h hh.symm)]

/-- C9 witness: a zone without a moment is rejected by the checked
constructor and produces the fully unset value. -/
theorem C9_ctor_contract_witness :
    DateTime.ctor2Checked (some tzutc) none = Except.error () ∧
    DateTime.ctor2 (some tzutc) none = DateTime.ctorDefault ∧
    (∀ a, DateTime.reset a (some tzutc) none = a) :=
  C9_ctor_contract (some tzutc) none (by decide)

/-- C10: add_days is definitionally the (0, 0, n, 0, 0, 0) instance of
add_full, for every receiver (set or unset) and every day count. -/
theorem C10_add_days (a : DateTime) (n : Int) :
    a.add_days n = a.add_full 0 0 n 0 0 0 := rfl

end IndicatorDatetime
